import Mathlib

/-!
Verification development for the ai-card-composer repository.

The executable core of the repository is the `BusinessCardMaker` component
in `src/pages/Index.tsx` (three related variants of the component appear in
that file; we refer to them as variant 1, 2 and 3 in document order).
The pipeline/render/export engines of `src/core/types/*.ts` are type
declarations only; where a claim depends on behaviour that exists only as a
declaration, the corresponding definition below is modelled from the spec
and says so in its doc comment.

Coordinates and sizes are embedded as rationals: every arithmetic operation
performed by the source on them (integer literals, addition, subtraction,
halving of even integers, small multiplications) is exact in JavaScript
numbers, so `ℚ` is a faithful carrier.
-/

namespace CardComposer

/-- Text alignment tag, from the `align?: 'left' | 'center' | 'right'`
field of `FieldPosition` in Index.tsx. -/
inductive TextAlign where
  | left
  | center
  | right
deriving DecidableEq, Repr

/-- `FieldPosition` from Index.tsx (variant 1, lines 4-12): anchor `x`,`y`,
font `size`, font `weight`, box `width` and `height`, and an optional
alignment (`none` models an absent `align` key). -/
structure FieldPosition where
  x : ℚ
  y : ℚ
  size : ℚ
  weight : String
  width : ℚ
  height : ℚ
  align : Option TextAlign
deriving DecidableEq, Repr

/-- The six field ids of the `cardData` state object (Index.tsx variant 1,
lines 23-30), in JavaScript insertion order. -/
inductive CardField where
  | name
  | title
  | company
  | phone
  | email
  | website
deriving DecidableEq, Repr

/-- The `cardData` state: one string value per field id. -/
structure CardData where
  name : String
  title : String
  company : String
  phone : String
  email : String
  website : String
deriving DecidableEq, Repr

/-- Look up a field value in `cardData` (the dynamic `cardData[field]`
access of the source). -/
def cardDataGet (f : CardField) (cd : CardData) : String :=
  match f with
  | .name => cd.name
  | .title => cd.title
  | .company => cd.company
  | .phone => cd.phone
  | .email => cd.email
  | .website => cd.website

/-- The object-spread update `{ ...prev, [field]: value }` of
`handleTextChange` (Index.tsx variant 1, lines 79-84). -/
def setCardField (f : CardField) (v : String) (cd : CardData) : CardData :=
  match f with
  | .name => { cd with name := v }
  | .title => { cd with title := v }
  | .company => { cd with company := v }
  | .phone => { cd with phone := v }
  | .email => { cd with email := v }
  | .website => { cd with website := v }

/-- The four template ids of variant 1 (Index.tsx lines 44-77). -/
inductive TemplateId where
  | modern
  | classic
  | minimal
  | executive
deriving DecidableEq, Repr

/-- `Object.entries(cardData)` iterates the six fields in insertion
order. -/
def cardFields : List CardField :=
  [.name, .title, .company, .phone, .email, .website]

/-- The `templates` object of Index.tsx variant 1 (lines 44-77), keyed by
template id then field id.  Every entry is present in the source literal;
the `Option` mirrors the `template[field]` existence check performed by the
drawing code. -/
def templates (t : TemplateId) (f : CardField) : Option FieldPosition :=
  match t, f with
  | .modern, .name => some ⟨40, 60, 24, "bold", 200, 30, none⟩
  | .modern, .title => some ⟨40, 90, 16, "normal", 180, 20, none⟩
  | .modern, .company => some ⟨40, 115, 14, "normal", 160, 18, none⟩
  | .modern, .phone => some ⟨40, 155, 12, "normal", 140, 16, none⟩
  | .modern, .email => some ⟨40, 175, 12, "normal", 180, 16, none⟩
  | .modern, .website => some ⟨40, 195, 12, "normal", 160, 16, none⟩
  | .classic, .name => some ⟨200, 60, 22, "bold", 160, 28, some .center⟩
  | .classic, .title => some ⟨200, 85, 14, "normal", 140, 18, some .center⟩
  | .classic, .company => some ⟨200, 105, 14, "bold", 140, 18, some .center⟩
  | .classic, .phone => some ⟨60, 155, 11, "normal", 120, 15, none⟩
  | .classic, .email => some ⟨60, 175, 11, "normal", 140, 15, none⟩
  | .classic, .website => some ⟨60, 195, 11, "normal", 120, 15, none⟩
  | .minimal, .name => some ⟨200, 80, 26, "light", 180, 32, some .center⟩
  | .minimal, .title => some ⟨200, 105, 14, "normal", 120, 18, some .center⟩
  | .minimal, .company => some ⟨200, 125, 12, "normal", 100, 16, some .center⟩
  | .minimal, .phone => some ⟨280, 165, 10, "normal", 100, 14, some .right⟩
  | .minimal, .email => some ⟨280, 180, 10, "normal", 120, 14, some .right⟩
  | .minimal, .website => some ⟨280, 195, 10, "normal", 100, 14, some .right⟩
  | .executive, .name => some ⟨60, 50, 20, "bold", 160, 26, none⟩
  | .executive, .title => some ⟨60, 75, 13, "normal", 140, 17, none⟩
  | .executive, .company => some ⟨60, 95, 15, "bold", 150, 19, none⟩
  | .executive, .phone => some ⟨240, 155, 11, "normal", 120, 15, some .right⟩
  | .executive, .email => some ⟨240, 175, 11, "normal", 140, 15, some .right⟩
  | .executive, .website => some ⟨240, 195, 11, "normal", 120, 15, some .right⟩

/-- The `design` state object of variant 1 (Index.tsx lines 32-37). -/
structure Design where
  backgroundColor : String
  textColor : String
  backgroundImage : Option String
  template : TemplateId
deriving DecidableEq, Repr

/-- The complete mutable editing state of the variant-1 component:
`cardData`, `design`, `activeField` and `showIndicators`
(Index.tsx lines 23-40). -/
structure AppState where
  cardData : CardData
  design : Design
  activeField : Option CardField
  showIndicators : Bool
deriving DecidableEq, Repr

/-- The initial `cardData` of variant 1 (Index.tsx lines 23-30). -/
def defaultCardData : CardData :=
  ⟨"John Doe", "Creative Director", "Design Studio", "+1 (555) 123-4567",
   "john@designstudio.com", "www.designstudio.com"⟩

/-- The initial state of variant 1 (Index.tsx lines 23-40):
white background, dark text, no background image, modern template,
no active field, indicators shown. -/
def initialAppState : AppState :=
  ⟨defaultCardData, ⟨"#ffffff", "#1e293b", none, .modern⟩, none, true⟩

/-- One step of `name.replace(/\s+/g, '-')`: each maximal run of
whitespace characters becomes a single `'-'`.  The boolean records whether
the previous character was whitespace (i.e. the `'-'` for the current run
has already been emitted). -/
def collapseWsAux : Bool → List Char → List Char
  | _, [] => []
  | prevWs, c :: rest =>
    if c.isWhitespace then
      if prevWs then collapseWsAux true rest
      else '-' :: collapseWsAux true rest
    else c :: collapseWsAux false rest

/-- The filename sanitizer of `downloadFinalCard` (Index.tsx variant 1,
lines 223 and 233): `value.replace(/\s+/g, '-').toLowerCase()`.
`Char.isWhitespace`/`Char.toLower` stand in for the JavaScript `\s` class
and `toLowerCase`, which agree on the ASCII inputs involved. -/
def sanitizeSlug (s : String) : String :=
  String.mk ((collapseWsAux false s.data).map Char.toLower)

/-- The canvas draw operations issued by the component, in the order they
reach the 2D context.  `fillText` carries the field id that produced it as
provenance, together with everything the source passes to the context
(`ctx.font` is split into its `size`/`weight` parts, `ctx.fillStyle` is
`color`, `ctx.textAlign` is `align`).  `strokeRect`, `arcDot` and
`guideLabel` are the guide-overlay primitives used by the template
download / preview indicator code. -/
inductive DrawOp where
  | fillRect (color : String) (x y w h : ℚ)
  | drawImage (src : String) (x y w h : ℚ)
  | fillText (field : CardField) (text : String) (x y size : ℚ)
      (weight color : String) (align : TextAlign)
  | strokeRect (color : String) (x y w h : ℚ)
  | arcDot (x y r : ℚ)
  | guideLabel (field : CardField) (x y : ℚ)
deriving DecidableEq, Repr

/-- The `ctx.textAlign` value chosen by the if/else-if/else chain of
`drawTextOnCanvas` (Index.tsx variant 1, lines 202-211): `center` and
`right` when so tagged, `left` otherwise. -/
def textAlignOf (pos : FieldPosition) : TextAlign :=
  match pos.align with
  | some .center => .center
  | some .right => .right
  | _ => .left

/-- The draw operation `drawTextOnCanvas` emits for one `cardData` entry
(Index.tsx variant 1, lines 196-213): nothing unless `template[field]`
exists and the value is truthy (non-empty), otherwise a `fillText` at the
anchor with the configured font and the design text color. -/
def fieldTextOp (tpl : CardField → Option FieldPosition) (cd : CardData)
    (textColor : String) (f : CardField) : Option DrawOp :=
  match tpl f with
  | none => none
  | some pos =>
    if cardDataGet f cd = "" then none
    else some (.fillText f (cardDataGet f cd) pos.x pos.y pos.size
      pos.weight textColor (textAlignOf pos))

/-- `drawTextOnCanvas` (Index.tsx variant 1, lines 193-214): one pass over
`Object.entries(cardData)` in insertion order, emitting the text draw for
each mapped, non-empty field. -/
def drawTextOnCanvas (tpl : CardField → Option FieldPosition)
    (cd : CardData) (textColor : String) : List DrawOp :=
  cardFields.filterMap (fieldTextOp tpl cd textColor)

/-- The background draw of `downloadFinalCard` (Index.tsx variant 1,
lines 216-231): the uploaded/generated image scaled to the whole 400x240
canvas when present, otherwise a solid fill of the whole canvas with the
design background color. -/
def backgroundDrawOp (s : AppState) : DrawOp :=
  match s.design.backgroundImage with
  | some src => .drawImage src 0 0 400 240
  | none => .fillRect s.design.backgroundColor 0 0 400 240

/-- The full draw-operation sequence of a `downloadFinalCard` export pass
(Index.tsx variant 1, lines 184-238): background first, then
`drawTextOnCanvas` on the active template. -/
def finalCardOps (s : AppState) : List DrawOp :=
  backgroundDrawOp s ::
    drawTextOnCanvas (templates s.design.template) s.cardData
      s.design.textColor

/-- The export filename of `downloadFinalCard` (Index.tsx variant 1,
lines 223 and 233):
`business-card-final-` + sanitized name value + `.png`. -/
def finalCardFilename (s : AppState) : String :=
  "business-card-final-" ++ sanitizeSlug s.cardData.name ++ ".png"

/-- The complete result of one `downloadFinalCard` call: the draw
operations and the filename handed to the download link.  The function
reads the state and performs no state update (the source body contains no
`setCardData`/`setDesign` call). -/
def downloadFinalCard (s : AppState) : List DrawOp × String :=
  (finalCardOps s, finalCardFilename s)

/-- Classifier: guide-overlay operations (outline rectangles, corner dots,
field labels). -/
def isGuideOp : DrawOp → Bool
  | .strokeRect _ _ _ _ _ => true
  | .arcDot _ _ _ => true
  | .guideLabel _ _ _ => true
  | _ => false

/-- Classifier: text draw operations. -/
def isTextOp : DrawOp → Bool
  | .fillText _ _ _ _ _ _ _ _ => true
  | _ => false

/-- Classifier: background draw operations (solid fill or bitmap). -/
def isBackgroundOp : DrawOp → Bool
  | .fillRect _ _ _ _ _ => true
  | .drawImage _ _ _ _ _ => true
  | _ => false

/-- Does the operation paint the whole 400x240 surface? -/
def coversCanvas : DrawOp → Bool
  | .fillRect _ x y w h => x = 0 && y = 0 && w = 400 && h = 240
  | .drawImage _ x y w h => x = 0 && y = 0 && w = 400 && h = 240
  | _ => false

/-- The field id a `fillText` operation draws, if any. -/
def fieldOfOp : DrawOp → Option CardField
  | .fillText f _ _ _ _ _ _ _ => some f
  | _ => none

/-- The guide box width of `drawTemplateIndicators` (Index.tsx variant 1,
line 125): `pos.width || pos.size * 6` (the fallback fires exactly when
`width` is falsy, i.e. 0). -/
def indicatorBoxWidth (pos : FieldPosition) : ℚ :=
  if pos.width = 0 then pos.size * 6 else pos.width

/-- The guide box height of `drawTemplateIndicators` (Index.tsx variant 1,
line 126): `pos.height || pos.size + 8`. -/
def indicatorBoxHeight (pos : FieldPosition) : ℚ :=
  if pos.height = 0 then pos.size + 8 else pos.height

/-- The guide-rectangle x origin of `drawTemplateIndicators` (Index.tsx
variant 1, lines 128-134): starts at `pos.x - 4` and, for center/right
alignment, additionally subtracts half / all of the box width. -/
def indicatorRectX (pos : FieldPosition) : ℚ :=
  match pos.align with
  | some .center => pos.x - indicatorBoxWidth pos / 2 - 4
  | some .right => pos.x - indicatorBoxWidth pos - 4
  | _ => pos.x - 4

/-- The guide-rectangle y origin (Index.tsx variant 1, line 136):
`pos.y - pos.size - 3`. -/
def indicatorRectY (pos : FieldPosition) : ℚ :=
  pos.y - pos.size - 3

/-- The x origin of a preview text element (Index.tsx variant 1, lines
427-447): the element is placed at `left: pos.x` and shifted by
`translateX(-50%)` for center alignment and `translateX(-100%)` for right
alignment, where `elemW` is the element's rendered width (equal to the
configured box width via `minWidth` whenever the content fits the box). -/
def previewTextOriginX (pos : FieldPosition) (elemW : ℚ) : ℚ :=
  match pos.align with
  | some .center => pos.x - elemW / 2
  | some .right => pos.x - elemW
  | _ => pos.x

/-- The corner-dot guide operations of `drawTemplateIndicators` for one
field (Index.tsx variant 1, lines 138-157): four radius-2 dots around the
guide rectangle. -/
def indicatorDotsFor (pos : FieldPosition) : List DrawOp :=
  [ .arcDot (indicatorRectX pos) (indicatorRectY pos) 2,
    .arcDot (indicatorRectX pos + indicatorBoxWidth pos + 8)
      (indicatorRectY pos) 2,
    .arcDot (indicatorRectX pos)
      (indicatorRectY pos + indicatorBoxHeight pos + 6) 2,
    .arcDot (indicatorRectX pos + indicatorBoxWidth pos + 8)
      (indicatorRectY pos + indicatorBoxHeight pos + 6) 2 ]

/-- The draw-operation sequence of a `downloadTemplate` pass (Index.tsx
variant 1, lines 107-182): background, then the guide dots of every
template entry.  (Only the AI-template download bakes guides into a
canvas; the final-card export never calls `drawTemplateIndicators`.) -/
def templateDownloadOps (s : AppState) : List DrawOp :=
  backgroundDrawOp s ::
    (cardFields.flatMap fun f =>
      match templates s.design.template f with
      | none => []
      | some pos => indicatorDotsFor pos)

/-- The design keys the color inputs pass to `handleColorChange`
(Index.tsx variant 1, lines 533 and 545). -/
inductive ColorKey where
  | backgroundColor
  | textColor
deriving DecidableEq, Repr

/-- The object-spread update `{ ...prev, [type]: color }` of
`handleColorChange` (Index.tsx variant 1, lines 86-91). -/
def setDesignColor (k : ColorKey) (c : String) (d : Design) : Design :=
  match k with
  | .backgroundColor => { d with backgroundColor := c }
  | .textColor => { d with textColor := c }

/-- `handleTextChange(field, value)` (Index.tsx variant 1, lines 79-84):
spread-update of the single `cardData` entry. -/
def handleTextChange (f : CardField) (v : String) (s : AppState) :
    AppState :=
  { s with cardData := setCardField f v s.cardData }

/-- `handleColorChange(type, color)` (Index.tsx variant 1, lines 86-91):
spread-update of the single `design` entry. -/
def handleColorChange (k : ColorKey) (c : String) (s : AppState) :
    AppState :=
  { s with design := setDesignColor k c s.design }

/-- The user events the variant-1 component reacts to.  Each constructor
names the handler or inline `setState` call that services it. -/
inductive UIEvent where
  | textChange (f : CardField) (v : String)
  | colorChange (k : ColorKey) (c : String)
  | uploadBackground (src : String)
  | removeBackground
  | selectTemplate (t : TemplateId)
  | toggleIndicators
  | selectField (f : CardField)
  | exportFinalCard
  | downloadAITemplate
  | resetAll

/-- The state transition of each event (Index.tsx variant 1).  The two
download events (`downloadFinalCard`, `downloadTemplate`) read the state
and draw onto a freshly created local canvas; their handler bodies contain
no state-setter call, so they leave the state unchanged. -/
def step : UIEvent → AppState → AppState
  | .textChange f v, s => handleTextChange f v s
  | .colorChange k c, s => handleColorChange k c s
  | .uploadBackground src, s =>
    { s with design := { s.design with backgroundImage := some src } }
  | .removeBackground, s =>
    { s with design := { s.design with backgroundImage := none } }
  | .selectTemplate t, s =>
    { s with design := { s.design with template := t } }
  | .toggleIndicators, s => { s with showIndicators := !s.showIndicators }
  | .selectField f, s => { s with activeField := some f }
  | .exportFinalCard, s => s
  | .downloadAITemplate, s => s
  | .resetAll, _ => initialAppState

/-- The `modern` template of Index.tsx variant 3 (lines 1263-1272).  The
object literal there also carries the metadata entries
`name: 'Modern Professional'` and `description: '...'`; the duplicated
`name` key means the `FieldPosition` below is the value JavaScript keeps
for `template.name`, and `description` is a plain string, not a field
position, so it is not part of this field map. -/
def templatesV3Modern (f : CardField) : Option FieldPosition :=
  match f with
  | .name => some ⟨40, 60, 24, "bold", 200, 30, none⟩
  | .title => some ⟨40, 90, 16, "normal", 180, 20, none⟩
  | .company => some ⟨40, 115, 14, "normal", 160, 18, none⟩
  | .phone => some ⟨40, 155, 12, "normal", 140, 16, none⟩
  | .email => some ⟨40, 175, 12, "normal", 180, 16, none⟩
  | .website => some ⟨40, 195, 12, "normal", 160, 16, none⟩

/-- The draw operation `drawText` of variant 3 emits for one `cardData`
entry (Index.tsx lines 1473-1492): the condition is
`template[field] && text && field !== 'name' && field !== 'description'`.
No `cardData` key is called `description`, so of the two exclusions only
the one on `name` can fire on a `cardData` entry. -/
def fieldTextOpV3 (tpl : CardField → Option FieldPosition) (cd : CardData)
    (textColor : String) (f : CardField) : Option DrawOp :=
  match tpl f with
  | none => none
  | some pos =>
    if cardDataGet f cd = "" ∨ f = CardField.name then none
    else some (.fillText f (cardDataGet f cd) pos.x pos.y pos.size
      pos.weight textColor (textAlignOf pos))

/-- `drawText` of Index.tsx variant 3 (lines 1473-1492): one pass over
`Object.entries(cardData)` with the variant-3 per-entry condition. -/
def drawText (tpl : CardField → Option FieldPosition) (cd : CardData)
    (textColor : String) : List DrawOp :=
  cardFields.filterMap (fieldTextOpV3 tpl cd textColor)

/-- Modelled from the spec: the filename computation of the Export Engine
(§4.3) — "computes a deterministic filename from widget id, a primary
field's value (sanitized to a filesystem-safe slug), and format
extension."  `ExportEngine.generateFilename(widget, fields, format)` is
declared in `pipeline.types.ts`/the generator prompt but has no
implementation under `src/`; the sanitizer is the one the shipped
`downloadFinalCard` code uses. -/
def generateFilename (widgetId : String) (primary : String)
    (ext : String) : String :=
  widgetId ++ "-" ++ sanitizeSlug primary ++ "." ++ ext

/-- Modelled from the spec: the Layout Resolver at a target scale factor
(§4.1 and the §8 concrete scenario) — the Render/Export engines that take
a scale are declared in `pipeline.types.ts` (`ExportRenderOptions.scale`)
but unimplemented under `src/`; per the spec, the absolute draw
coordinates in destination pixels are the alignment-resolved anchor
multiplied by the scale factor. -/
def resolvedOriginAt (scale : ℚ) (pos : FieldPosition) (elemW : ℚ) :
    ℚ × ℚ :=
  (scale * previewTextOriginX pos elemW, scale * pos.y)

/-- Modelled from the spec: a history snapshot (§3, `HistorySnapshot` /
`PipelineSnapshot` of `pipeline.types.ts`) captures the field values and
the design state.  The timestamp of the declaration plays no role in
state restoration and is omitted. -/
structure Snapshot where
  fields : CardData
  design : Design
deriving DecidableEq, Repr

/-- Modelled from the spec: the undo/redo history of the Pipeline Engine
(§3, `HistoryState` of `pipeline.types.ts`): the current snapshot plus a
past and a future stack. -/
structure HistoryState where
  current : Snapshot
  past : List Snapshot
  future : List Snapshot
deriving DecidableEq, Repr

/-- Modelled from the spec: applying a field/design mutation (§4.5
`updateFields`/`updateDesign`): merge into the current state, push a
snapshot of the prior state, and clear the future stack (§3: "pushing a
new mutation clears the future stack"). -/
def applyMutation (m : Snapshot → Snapshot) (h : HistoryState) :
    HistoryState :=
  ⟨m h.current, h.current :: h.past, []⟩

/-- Modelled from the spec: `undo()` (§4.5) — pop the most recent past
snapshot into `current`, pushing the displaced `current` onto the future
stack; a no-op beyond the oldest snapshot. -/
def undo (h : HistoryState) : HistoryState :=
  match h.past with
  | [] => h
  | p :: ps => ⟨p, ps, h.current :: h.future⟩

/-- Modelled from the spec: `redo()` (§4.5) — pop the next future snapshot
into `current`, pushing the displaced `current` onto the past stack; a
no-op with an empty future stack. -/
def redo (h : HistoryState) : HistoryState :=
  match h.future with
  | [] => h
  | f :: fs => ⟨f, h.current :: h.past, fs⟩

/-- `undo` applied `n` times. -/
def undoN : Nat → HistoryState → HistoryState
  | 0, h => h
  | n + 1, h => undoN n (undo h)

/-- `redo` applied `n` times. -/
def redoN : Nat → HistoryState → HistoryState
  | 0, h => h
  | n + 1, h => redo (redoN n h)

/-- Modelled from the spec: an initialized pipeline session with empty
history stacks around the initial snapshot. -/
def initHistory (s0 : Snapshot) : HistoryState :=
  ⟨s0, [], []⟩

/-- A sequence of mutations applied in order. -/
def runMutations (ms : List (Snapshot → Snapshot)) (h : HistoryState) :
    HistoryState :=
  ms.foldl (fun h m => applyMutation m h) h

/-- Any operation `fieldTextOp` emits is a text draw. -/
lemma fieldTextOp_isTextOp (tpl : CardField → Option FieldPosition)
    (cd : CardData) (c : String) (f : CardField) (op : DrawOp)
    (h : fieldTextOp tpl cd c f = some op) : isTextOp op = true := by
  unfold fieldTextOp at h
  split at h
  · exact absurd h (by simp)
  · split at h
    · exact absurd h (by simp)
    · injection h with h
      subst h
      rfl

/-- Every operation of a `drawTextOnCanvas` pass is a text draw. -/
lemma drawTextOnCanvas_all_text (tpl : CardField → Option FieldPosition)
    (cd : CardData) (c : String) :
    (drawTextOnCanvas tpl cd c).all isTextOp = true := by
  rw [List.all_eq_true]
  intro op hop
  obtain ⟨f, _, hf⟩ := List.mem_filterMap.mp hop
  exact fieldTextOp_isTextOp tpl cd c f op hf

/-- A text draw is not a guide-overlay operation. -/
lemma isTextOp_not_guide (op : DrawOp) (h : isTextOp op = true) :
    isGuideOp op = false := by
  cases op <;> simp [isTextOp, isGuideOp] at *

/-- `redo` undoes `undo` whenever the past stack is nonempty. -/
lemma redo_undo (h : HistoryState) (hp : h.past ≠ []) :
    redo (undo h) = h := by
  obtain ⟨c, past, fut⟩ := h
  cases past with
  | nil => exact absurd rfl hp
  | cons p ps => rfl

/-- `n` undos followed by `n` redos restore the history exactly whenever
at least `n` past snapshots exist. -/
lemma redoN_undoN (n : ℕ) :
    ∀ h : HistoryState, n ≤ h.past.length → redoN n (undoN n h) = h := by
  induction n with
  | zero => intro h _; rfl
  | succ n ih =>
    intro h hle
    obtain ⟨c, past, fut⟩ := h
    cases past with
    | nil => simp at hle
    | cons p ps =>
      have hlen : n ≤ (HistoryState.mk p ps (c :: fut)).past.length := by
        simp at hle ⊢
        omega
      calc redoN (n + 1) (undoN (n + 1) (HistoryState.mk c (p :: ps) fut))
          = redo (redoN n (undoN n (HistoryState.mk p ps (c :: fut)))) :=
            rfl
        _ = redo (HistoryState.mk p ps (c :: fut)) := by rw [ih _ hlen]
        _ = HistoryState.mk c (p :: ps) fut := rfl

/-- Each mutation grows the past stack by exactly one snapshot. -/
lemma runMutations_past_length (ms : List (Snapshot → Snapshot)) :
    ∀ h : HistoryState,
      (runMutations ms h).past.length = ms.length + h.past.length := by
  induction ms with
  | nil =>
    intro h
    simp [runMutations]
  | cons m ms ih =>
    intro h
    have hstep : runMutations (m :: ms) h
        = runMutations ms (applyMutation m h) := rfl
    rw [hstep, ih]
    simp [applyMutation]
    omega

/-- C1.  For every template field configuration with box width `w` and
anchor `x`, the draw origin used for the field is `x` for left or
unspecified alignment, `x - w/2` for center, and `x - w` for right: this
is the preview text-element placement (`left: x` plus
`translateX(-50% or -100%)` of the element width, which equals the box width
via `minWidth`), and the guide-rectangle origin of
`drawTemplateIndicators` is the same mapping shifted by its constant 4px
guide padding.  Identical inputs always yield identical coordinates. -/
theorem alignment_maps_anchor_to_origin :
    ∀ pos : FieldPosition,
      ((pos.align = none ∨ pos.align = some TextAlign.left) →
        previewTextOriginX pos pos.width = pos.x
        ∧ indicatorRectX pos = pos.x - 4)
      ∧ (pos.align = some TextAlign.center →
        previewTextOriginX pos pos.width = pos.x - pos.width / 2
        ∧ indicatorRectX pos = pos.x - indicatorBoxWidth pos / 2 - 4)
      ∧ (pos.align = some TextAlign.right →
        previewTextOriginX pos pos.width = pos.x - pos.width
        ∧ indicatorRectX pos = pos.x - indicatorBoxWidth pos - 4)
      ∧ (pos.width ≠ 0 → indicatorBoxWidth pos = pos.width)
      ∧ (∀ q : FieldPosition, pos = q →
        previewTextOriginX pos pos.width = previewTextOriginX q q.width
        ∧ indicatorRectX pos = indicatorRectX q) := by
  intro pos
  refine ⟨?_, ?_, ?_, ?_, ?_⟩
  · rintro (h | h) <;> simp [previewTextOriginX, indicatorRectX, h]
  · intro h
    simp [previewTextOriginX, indicatorRectX, h]
  · intro h
    simp [previewTextOriginX, indicatorRectX, h]
  · intro h
    simp [indicatorBoxWidth, h]
  · rintro q rfl
    exact ⟨rfl, rfl⟩

/-- Witness for C1 at the center-aligned `classic.name` configuration. -/
theorem alignment_maps_anchor_to_origin_witness :
    previewTextOriginX ⟨200, 60, 22, "bold", 160, 28, some TextAlign.center⟩
        160 = 200 - 160 / 2
    ∧ indicatorRectX ⟨200, 60, 22, "bold", 160, 28, some TextAlign.center⟩
      = 200 - indicatorBoxWidth
          ⟨200, 60, 22, "bold", 160, 28, some TextAlign.center⟩ / 2 - 4 :=
  (alignment_maps_anchor_to_origin
    ⟨200, 60, 22, "bold", 160, 28, some TextAlign.center⟩).2.1 rfl

/-- C2.  The modern template's left-aligned `name` field is anchored at
(40, 60); at scale 1 the resolved origin is exactly (40, 60) and at scale
2 it is exactly (80, 120); resolved coordinates scale linearly with the
scale factor for every field; and the shipped scale-1 export indeed draws
the name at (40, 60) left-aligned. -/
theorem modern_name_scales_linearly :
    ((templates TemplateId.modern CardField.name).map
      fun pos => resolvedOriginAt 1 pos pos.width) = some (40, 60)
    ∧ ((templates TemplateId.modern CardField.name).map
      fun pos => resolvedOriginAt 2 pos pos.width) = some (80, 120)
    ∧ (∀ (sc : ℚ) (pos : FieldPosition) (w : ℚ),
        resolvedOriginAt sc pos w
          = (sc * (resolvedOriginAt 1 pos w).1,
             sc * (resolvedOriginAt 1 pos w).2))
    ∧ DrawOp.fillText CardField.name "John Doe" 40 60 24 "bold" "#1e293b"
        TextAlign.left ∈ finalCardOps initialAppState := by
  refine ⟨?_, ?_, ?_, ?_⟩
  · norm_num [templates, resolvedOriginAt, previewTextOriginX]
  · norm_num [templates, resolvedOriginAt, previewTextOriginX]
  · intro sc pos w
    simp [resolvedOriginAt]
  · simp [finalCardOps, backgroundDrawOp, drawTextOnCanvas, cardFields,
      fieldTextOp, templates, initialAppState, defaultCardData,
      cardDataGet, textAlignOf]

/-- C3.  The export filename is a deterministic function of the field
values (equal `cardData` gives equal filenames, format being fixed png),
and the widget-id-dependent filename of the Export Engine distinguishes
two states that differ only in widget id. -/
theorem filename_determinism :
    (∀ s1 s2 : AppState, s1.cardData = s2.cardData →
      finalCardFilename s1 = finalCardFilename s2)
    ∧ generateFilename "business-card" "John Doe" "png"
        ≠ generateFilename "tarot-card" "John Doe" "png" := by
  constructor
  · intro s1 s2 h
    unfold finalCardFilename
    rw [h]
  · decide

/-- A state with the same field values as the initial state but a
different design, active field and indicator toggle. -/
def altState : AppState :=
  ⟨defaultCardData, ⟨"#000000", "#ffffff", none, TemplateId.classic⟩,
   some CardField.email, false⟩

/-- Witness for C3: two exports with equal field values yield the same
filename, and the modelled widget-id filenames differ. -/
theorem filename_determinism_witness :
    finalCardFilename initialAppState = finalCardFilename altState
    ∧ generateFilename "business-card" "John Doe" "png"
        ≠ generateFilename "tarot-card" "John Doe" "png" :=
  ⟨filename_determinism.1 initialAppState altState rfl,
   filename_determinism.2⟩

/-- C4 (code bug).  In the variant-3 export (`drawText`, Index.tsx lines
1473-1492) at its default state, the `name` field is present in the
modern template's field map and carries the non-empty value "John Doe",
yet no draw operation of the export pass paints it: the guard
`field !== 'name'` (aimed at the template metadata key) silently drops
the card's name from the exported output. -/
theorem name_field_omitted_in_variant3_export :
    (templatesV3Modern CardField.name).isSome = true
    ∧ cardDataGet CardField.name defaultCardData ≠ ""
    ∧ (drawText templatesV3Modern defaultCardData "#1e293b").all
        (fun op => !(fieldOfOp op == some CardField.name)) = true := by
  refine ⟨rfl, by decide, by decide⟩

/-- C5.  Exporting the final card never mutates the editing state: after
the export event both the field values and the design settings are
exactly what they were at invocation time. -/
theorem export_preserves_state :
    ∀ s : AppState,
      (step UIEvent.exportFinalCard s).cardData = s.cardData
      ∧ (step UIEvent.exportFinalCard s).design = s.design := by
  intro s
  exact ⟨rfl, rfl⟩

/-- C6.  Guide overlays are never baked into the exported final card: no
draw operation of a final-card export is a guide rectangle, corner dot or
field label, and the export's operation sequence does not depend on the
show-indicators toggle at all. -/
theorem export_excludes_guides :
    ∀ s : AppState,
      (finalCardOps s).all (fun op => !isGuideOp op) = true
      ∧ ∀ b : Bool,
          finalCardOps ⟨s.cardData, s.design, s.activeField, b⟩
            = finalCardOps s := by
  intro s
  constructor
  · rw [List.all_eq_true]
    intro op hop
    rw [finalCardOps, List.mem_cons] at hop
    rcases hop with hbg | htext
    · subst hbg
      unfold backgroundDrawOp
      cases s.design.backgroundImage <;> rfl
    · obtain ⟨f, _, hf⟩ := List.mem_filterMap.mp htext
      have ht := fieldTextOp_isTextOp _ _ _ _ _ hf
      rw [isTextOp_not_guide op ht]
      rfl
  · intro b
    rfl

/-- C7.  Every final-card export pass draws the background — a solid
color or an image covering the whole 400x240 surface — first, and every
text draw operation comes after it. -/
theorem background_precedes_text :
    ∀ s : AppState, ∃ rest : List DrawOp,
      finalCardOps s = backgroundDrawOp s :: rest
      ∧ isBackgroundOp (backgroundDrawOp s) = true
      ∧ coversCanvas (backgroundDrawOp s) = true
      ∧ rest.all isTextOp = true := by
  intro s
  refine ⟨drawTextOnCanvas (templates s.design.template) s.cardData
    s.design.textColor, rfl, ?_, ?_, drawTextOnCanvas_all_text _ _ _⟩
  · unfold backgroundDrawOp
    cases s.design.backgroundImage <;> rfl
  · unfold backgroundDrawOp
    cases s.design.backgroundImage <;> simp [coversCanvas]

/-- C8.  Rendering/export is deterministic: two states with the same
field values and design settings (whatever their active field or
indicator toggle) produce the identical draw-operation sequence and the
identical filename. -/
theorem export_is_deterministic :
    ∀ s1 s2 : AppState, s1.cardData = s2.cardData →
      s1.design = s2.design →
      downloadFinalCard s1 = downloadFinalCard s2 := by
  intro s1 s2 hcd hd
  unfold downloadFinalCard finalCardOps backgroundDrawOp finalCardFilename
  rw [hcd, hd]

/-- Witness for C8: the initial state and a state differing only in the
active field and the indicator toggle export identically. -/
theorem export_is_deterministic_witness :
    downloadFinalCard initialAppState
      = downloadFinalCard
        ⟨defaultCardData, ⟨"#ffffff", "#1e293b", none, TemplateId.modern⟩,
         some CardField.name, false⟩ :=
  export_is_deterministic _ _ rfl rfl

/-- C9.  For every sequence of N mutations from an initialized session,
N undos followed by N redos restore exactly the state reached after the
Nth mutation; undo with an empty past stack is a no-op; redo with an
empty future stack is a no-op. -/
theorem undo_redo_symmetry :
    (∀ (ms : List (Snapshot → Snapshot)) (s0 : Snapshot),
      redoN ms.length (undoN ms.length (runMutations ms (initHistory s0)))
        = runMutations ms (initHistory s0))
    ∧ (∀ h : HistoryState, h.past = [] → undo h = h)
    ∧ (∀ h : HistoryState, h.future = [] → redo h = h) := by
  refine ⟨?_, ?_, ?_⟩
  · intro ms s0
    apply redoN_undoN
    rw [runMutations_past_length]
    simp [initHistory]
  · intro h hp
    unfold undo
    rw [hp]
  · intro h hf
    unfold redo
    rw [hf]

/-- A concrete field mutation for the C9 witness. -/
def mutStep1 : Snapshot → Snapshot :=
  fun s => ⟨setCardField CardField.name "Avery Chen" s.fields, s.design⟩

/-- A concrete design mutation for the C9 witness. -/
def mutStep2 : Snapshot → Snapshot :=
  fun s => ⟨s.fields, setDesignColor ColorKey.textColor "#000000" s.design⟩

/-- The initial snapshot for the C9 witness. -/
def snap0 : Snapshot :=
  ⟨defaultCardData, ⟨"#ffffff", "#1e293b", none, TemplateId.modern⟩⟩

/-- Witness for C9 with a concrete two-mutation session. -/
theorem undo_redo_symmetry_witness :
    redoN 2 (undoN 2 (runMutations [mutStep1, mutStep2]
        (initHistory snap0)))
      = runMutations [mutStep1, mutStep2] (initHistory snap0)
    ∧ undo (initHistory snap0) = initHistory snap0
    ∧ redo (initHistory snap0) = initHistory snap0 :=
  ⟨undo_redo_symmetry.1 [mutStep1, mutStep2] snap0,
   undo_redo_symmetry.2.1 (initHistory snap0) rfl,
   undo_redo_symmetry.2.2 (initHistory snap0) rfl⟩

/-- C10.  A single-field mutation is frame-preserving:
`handleTextChange f v` changes only entry `f` of the card data and leaves
every other field value and the entire design state unchanged;
`handleColorChange k c` changes only design entry `k` and leaves all
other design entries and all field values unchanged. -/
theorem single_mutation_frame :
    ∀ (s : AppState) (f g : CardField) (v : String) (k : ColorKey)
      (c : String),
      cardDataGet g (handleTextChange f v s).cardData
        = (if g = f then v else cardDataGet g s.cardData)
      ∧ (handleTextChange f v s).design = s.design
      ∧ (handleColorChange k c s).design.backgroundColor
        = (if k = ColorKey.backgroundColor then c
           else s.design.backgroundColor)
      ∧ (handleColorChange k c s).design.textColor
        = (if k = ColorKey.textColor then c else s.design.textColor)
      ∧ (handleColorChange k c s).design.backgroundImage
        = s.design.backgroundImage
      ∧ (handleColorChange k c s).design.template = s.design.template
      ∧ (handleColorChange k c s).cardData = s.cardData := by
  intro s f g v k c
  refine ⟨?_, rfl, ?_, ?_, ?_, ?_, rfl⟩
  · cases f <;> cases g <;>
      simp [handleTextChange, setCardField, cardDataGet]
  · cases k <;> simp [handleColorChange, setDesignColor]
  · cases k <;> simp [handleColorChange, setDesignColor]
  · cases k <;> simp [handleColorChange, setDesignColor]
  · cases k <;> simp [handleColorChange, setDesignColor]

end CardComposer
